import Mathlib

/-!
Verification of the caching-and-resilience layer of the tarkov-search server
(`src/server.js`): the TTL cache store, the cache-coordinated request
handlers, the resilient (soft-degrade) ban-check path, the admin cache
controls, and the rate limiter.  JavaScript `Map` states are modelled as
association lists with distinct keys, timestamps and durations as `Nat`
(milliseconds), and upstream HTTP outcomes as explicit sum types.
-/

/-- A cache entry as stored by `getFromCache`: `{ data, timestamp: Date.now() }`
(server.js line 48). -/
structure CacheEntry (α : Type) where
  data : α
  timestamp : Nat
deriving DecidableEq, Repr

/-- The global `cache = new Map()` (server.js line 31), modelled as an
association list from string keys to entries.  All reachable states have
pairwise-distinct keys, which `mapSet` / `mapDelete` preserve. -/
abbrev CacheMap (α : Type) : Type := List (String × CacheEntry α)

/-- `Map.prototype.get`. -/
def mapGet {α : Type} (m : CacheMap α) (k : String) : Option (CacheEntry α) :=
  match m with
  | [] => none
  | (k', e) :: rest => if k' = k then some e else mapGet rest k

/-- `Map.prototype.set`: overwrites in place if the key is present, otherwise
appends (insertion order, as a JS `Map`). -/
def mapSet {α : Type} (m : CacheMap α) (k : String) (e : CacheEntry α) :
    CacheMap α :=
  match m with
  | [] => [(k, e)]
  | (k', e') :: rest =>
      if k' = k then (k, e) :: rest else (k', e') :: mapSet rest k e

/-- `Map.prototype.delete` (used by `clearCache`, server.js line 57). -/
def mapDelete {α : Type} (m : CacheMap α) (k : String) : CacheMap α :=
  m.filter (fun p => p.1 != k)

/-- `Map.prototype.has` (server.js line 652). -/
def mapHas {α : Type} (m : CacheMap α) (k : String) : Bool :=
  (mapGet m k).isSome

/-- `Map.prototype.size`: on a distinct-key association list this is the
number of entries. -/
def mapSize {α : Type} (m : CacheMap α) : Nat :=
  m.length

/-- `CACHE_DURATION = 5 * 60 * 1000` (server.js line 32). -/
def CACHE_DURATION : Nat := 5 * 60 * 1000

/-- The ban-check TTL `15 * 60 * 1000` (server.js line 277). -/
def BAN_CHECK_DURATION : Nat := 15 * 60 * 1000

/-- Result of one `getFromCache` call: the settled promise value, the cache
state afterwards, and whether the producer `fn` was invoked (the call-count
instrumentation the spec's scenario B asks for). -/
structure CacheResult (ε α : Type) where
  result : Except ε α
  cache : CacheMap α
  producerCalled : Bool

/-- `getFromCache(key, fn, duration)` (server.js lines 41-51): return the
cached data if the entry exists and `Date.now() - cached.timestamp <
duration`; otherwise run `fn` and, on fulfilment, store its value with a
fresh timestamp.  A rejected `fn` leaves the cache untouched (the `.then`
callback never runs) and the rejection propagates.  `now` stands for
`Date.now()`; the producer is a settled `Except` since the handler awaits
it. -/
def getFromCache {ε α : Type} (cache : CacheMap α) (key : String) (now : Nat)
    (fn : Except ε α) (duration : Nat) : CacheResult ε α :=
  match mapGet cache key with
  | some cached =>
      if now - cached.timestamp < duration then
        ⟨Except.ok cached.data, cache, false⟩
      else
        match fn with
        | Except.ok data => ⟨Except.ok data, mapSet cache key ⟨data, now⟩, true⟩
        | Except.error e => ⟨Except.error e, cache, true⟩
  | none =>
      match fn with
      | Except.ok data => ⟨Except.ok data, mapSet cache key ⟨data, now⟩, true⟩
      | Except.error e => ⟨Except.error e, cache, true⟩

/-- No entry for `key` would be served from cache at time `now` under
TTL `t`: the key is absent or every stored entry is stale. -/
def noFresh {α : Type} (cache : CacheMap α) (key : String) (now t : Nat) :
    Prop :=
  ∀ e : CacheEntry α, mapGet cache key = some e → t ≤ now - e.timestamp

/-- JavaScript `s.toLowerCase()` on the ASCII strings this server handles
(usernames are validated to `[a-zA-Z0-9_-]`, queries are lowercased the same
way): each character is lowercased. -/
def jsToLower (s : String) : String :=
  String.mk (s.data.map Char.toLower)

/-- `validateUsername` (server.js lines 63-68): 3-20 characters, each
alphanumeric, hyphen or underscore. -/
def validateUsername (username : String) : Bool :=
  3 ≤ username.length && username.length ≤ 20 &&
    username.data.all (fun c => c.isAlphanum || c = '_' || c = '-')

/-- Cache key of `/api/player/search` (server.js line 96). -/
def playerSearchKey (username : String) : String :=
  "player_" ++ jsToLower username

/-- Cache key of `/api/player/:playerId` (server.js line 156). -/
def playerProfileKey (playerId : String) : String :=
  "player_profile_" ++ playerId

/-- Cache key of `/api/ban-check` (server.js line 247). -/
def banCheckKey (username : String) : String :=
  "ban_check_" ++ jsToLower username

/-- Cache key of `/api/market/search` (server.js line 366). -/
def marketSearchKey (query : String) : String :=
  "market_search_" ++ jsToLower query

/-- Cache key of `/api/market/item/:itemId` (server.js line 419). -/
def marketItemKey (itemId : String) : String :=
  "market_item_" ++ itemId

/-- Cache key of `/api/market/history/:itemId` (server.js line 555):
`market_history_${itemId}_${days}` with `days` taken verbatim from the query
string. -/
def marketHistoryKey (itemId days : String) : String :=
  "market_history_" ++ itemId ++ "_" ++ days

/-- JavaScript `s || d` for a string field that may be missing: a missing or
empty string yields the default (both are falsy). -/
def jsOrStr (s : Option String) (d : String) : String :=
  match s with
  | none => d
  | some s => if s = "" then d else s

/-- JavaScript `s || null` for a string field: a missing or empty string
yields `null` (modelled `none`). -/
def jsOrNull (s : Option String) : Option String :=
  match s with
  | none => none
  | some s => if s = "" then none else some s

/-- Outcome of one GraphQL upstream call (`axios.post(TARKOV_API_BASE, …)`):
a transport failure (timeout, network error — the promise rejects with that
message), a response carrying an `errors` list (the handler throws its first
message, server.js lines 121-123), or a successful payload. -/
inductive UpstreamGql (α : Type) where
  | transportError (msg : String)
  | gqlErrors (firstMsg : Option String)
  | ok (data : α)

/-- Whether the upstream call failed (either way the producer promise
rejects). -/
def UpstreamGql.isFailure {α : Type} : UpstreamGql α → Bool
  | .transportError _ => true
  | .gqlErrors _ => true
  | .ok _ => false

/-- The producer passed to `getFromCache` by the hard-path handlers: on a
GraphQL error envelope it throws `errors[0].message || fallbackMsg`
(server.js line 122), on transport failure the rejection propagates, on
success it returns the payload. -/
def gqlProducer {α : Type} (fallbackMsg : String) :
    UpstreamGql α → Except String α
  | .transportError m => Except.error m
  | .gqlErrors m => Except.error (jsOrStr m fallbackMsg)
  | .ok d => Except.ok d

/-- The JSON envelope sent by the data endpoints:
`{ success, error?, data? }` plus the HTTP status code. -/
structure ApiResponse (α : Type) where
  status : Nat
  success : Bool
  error : Option String
  data : Option α
deriving DecidableEq

/-- `GET /api/player/search?username=…` (server.js lines 78-146): validate
the username, resolve through the cache with the GraphQL producer, then 404
on a null player, 500 on a thrown error (`error.message || 'Failed to search
for player'`), 200 otherwise.  The third component is the producer-call
instrumentation from `getFromCache`. -/
def playerSearch {α : Type} (username : Option String)
    (cache : CacheMap (Option α)) (now : Nat)
    (upstream : UpstreamGql (Option α)) :
    ApiResponse α × CacheMap (Option α) × Bool :=
  match username with
  | none => (⟨400, false, some "Username parameter is required", none⟩, cache, false)
  | some u =>
    if validateUsername u = false then
      (⟨400, false,
        some "Invalid username format. Username must be 3-20 characters and contain only alphanumeric characters, hyphens, and underscores.",
        none⟩, cache, false)
    else
      let r := getFromCache cache (playerSearchKey u) now
        (gqlProducer "Failed to fetch player data" upstream) CACHE_DURATION
      match r.result with
      | Except.error msg =>
          (⟨500, false, some (jsOrStr (some msg) "Failed to search for player"), none⟩,
            r.cache, r.producerCalled)
      | Except.ok none =>
          (⟨404, false, some "Player not found", none⟩, r.cache, r.producerCalled)
      | Except.ok (some p) =>
          (⟨200, true, none, some p⟩, r.cache, r.producerCalled)

/-- `GET /api/player/:playerId` (server.js lines 152-219): no format
validation on the path parameter; 404 on a null profile, 500 on a thrown
error, 200 otherwise. -/
def playerProfile {α : Type} (playerId : String)
    (cache : CacheMap (Option α)) (now : Nat)
    (upstream : UpstreamGql (Option α)) :
    ApiResponse α × CacheMap (Option α) × Bool :=
  let r := getFromCache cache (playerProfileKey playerId) now
    (gqlProducer "Failed to fetch player profile" upstream) CACHE_DURATION
  match r.result with
  | Except.error msg =>
      (⟨500, false, some (jsOrStr (some msg) "Failed to fetch player profile"), none⟩,
        r.cache, r.producerCalled)
  | Except.ok none =>
      (⟨404, false, some "Player profile not found", none⟩, r.cache, r.producerCalled)
  | Except.ok (some p) =>
      (⟨200, true, none, some p⟩, r.cache, r.producerCalled)

/-- `GET /api/market/item/:itemId` (server.js lines 415-487): 404 on a null
item, 500 on a thrown error, 200 otherwise. -/
def marketItem {α : Type} (itemId : String)
    (cache : CacheMap (Option α)) (now : Nat)
    (upstream : UpstreamGql (Option α)) :
    ApiResponse α × CacheMap (Option α) × Bool :=
  let r := getFromCache cache (marketItemKey itemId) now
    (gqlProducer "Failed to fetch item data" upstream) CACHE_DURATION
  match r.result with
  | Except.error msg =>
      (⟨500, false, some (jsOrStr (some msg) "Failed to fetch item data"), none⟩,
        r.cache, r.producerCalled)
  | Except.ok none =>
      (⟨404, false, some "Item not found", none⟩, r.cache, r.producerCalled)
  | Except.ok (some p) =>
      (⟨200, true, none, some p⟩, r.cache, r.producerCalled)

/-- The fields the ban-check handler reads from the upstream JSON
(`response.data`, server.js lines 257-264). -/
structure BanApiData where
  banned : Option Bool
  reason : Option String
  bannedAt : Option String
  banType : Option String
  source : Option String
deriving DecidableEq

/-- Outcome of the `axios.get(BAN_CHECK_API + "/check")` call: a payload, or
any failure (timeout, transport, non-2xx) caught by the inner `catch`. -/
inductive BanUpstream where
  | ok (d : BanApiData)
  | failure
deriving DecidableEq

/-- The ban-status object built by the ban-check producer
(server.js lines 257-275). -/
structure BanStatus where
  username : String
  isBanned : Bool
  banReason : Option String
  banDate : Option String
  banType : String
  source : String
  note : Option String
deriving DecidableEq

/-- The producer inside `/api/ban-check` (server.js lines 249-276): on
upstream success, the translated payload (`banned === true`, `|| null`,
`|| 'unknown'`); on any upstream failure the inner `catch` swallows it and
returns the degraded object with `source: 'offline'` and the unavailability
note.  This producer never rejects, hence the empty error type. -/
def banCheckProducer (username : String) : BanUpstream → BanStatus
  | .ok d =>
      ⟨username, d.banned = some true, jsOrNull d.reason, jsOrNull d.bannedAt,
        jsOrStr d.banType "unknown", jsOrStr d.source "unknown", none⟩
  | .failure =>
      ⟨username, false, none, none, "unknown", "offline",
        some "Ban check service unavailable, player status unknown"⟩

/-- `GET /api/ban-check?username=…` (server.js lines 229-290): validate the
username, resolve through the cache with the swallowing producer under the
15-minute TTL, and always answer `{ success: true, data: banStatus }` (the
outer `catch` is unreachable because the producer never rejects). -/
def banCheck (username : Option String) (cache : CacheMap BanStatus)
    (now : Nat) (upstream : BanUpstream) :
    ApiResponse BanStatus × CacheMap BanStatus × Bool :=
  match username with
  | none => (⟨400, false, some "Username parameter is required", none⟩, cache, false)
  | some u =>
    if validateUsername u = false then
      (⟨400, false, some "Invalid username format", none⟩, cache, false)
    else
      let r := getFromCache (ε := Empty) cache (banCheckKey u) now
        (Except.ok (banCheckProducer u upstream)) BAN_CHECK_DURATION
      match r.result with
      | Except.ok st => (⟨200, true, none, some st⟩, r.cache, r.producerCalled)
      | Except.error e => e.elim

/-- The JSON envelope of the admin endpoints (server.js lines 616-663):
`{ success, error? | message?, existed? }` plus the HTTP status code. -/
structure AdminResponse where
  status : Nat
  success : Bool
  error : Option String
  message : Option String
  existed : Option Bool
deriving DecidableEq

/-- `POST /api/admin/cache/clear` (server.js lines 616-634): compare the
`x-admin-key` header with the configured secret; on mismatch answer 401
without touching the cache, otherwise record `cache.size`, clear the map and
report the count in the message. -/
def adminClearAll {α : Type} (adminKey expectedKey : String)
    (cache : CacheMap α) : AdminResponse × CacheMap α :=
  if adminKey = expectedKey then
    (⟨200, true, none,
      some ("Cache cleared. " ++ toString (mapSize cache) ++ " entries removed."),
      none⟩, [])
  else
    (⟨401, false, some "Unauthorized", none, none⟩, cache)

/-- `POST /api/admin/cache/clear/:key` (server.js lines 640-663): on secret
mismatch answer 401 without touching the cache; otherwise delete the key if
present and report whether it existed. -/
def adminClearKey {α : Type} (adminKey expectedKey key : String)
    (cache : CacheMap α) : AdminResponse × CacheMap α :=
  if adminKey = expectedKey then
    let existed := mapHas cache key
    (⟨200, true, none,
      some ("Cache key \x27" ++ key ++ "\x27 cleared."), some existed⟩,
      if existed then mapDelete cache key else cache)
  else
    (⟨401, false, some "Unauthorized", none, none⟩, cache)

/-- The per-client sliding-window state of the rate limiter
(spec section 3, RateWindow). -/
structure RateWindow where
  count : Nat
  windowStart : Nat
deriving DecidableEq

/-- Modelled from the spec: the server configures `express-rate-limit` with
`windowMs = 15 * 60 * 1000` and `max = 100` (server.js lines 17-23), but the
admission algorithm itself lives in that library, outside `src/`.  Spec
section 4.4: if `now - windowStart` exceeds the window length the window
resets to `count = 0, windowStart = now`; then `count` is incremented and the
request is admitted iff `count <= limit`. -/
def rateAdmit (limit windowMs : Nat) (w : RateWindow) (now : Nat) :
    Bool × RateWindow :=
  let w1 := if windowMs < now - w.windowStart then RateWindow.mk 0 now else w
  let w2 := RateWindow.mk (w1.count + 1) w1.windowStart
  (decide (w2.count ≤ limit), w2)

/-- Modelled from the spec: fold `rateAdmit` over a sequence of request times for
one client, collecting each admission verdict and the final window. -/
def rateAdmitSeq (limit windowMs : Nat) (w : RateWindow) :
    List Nat → List Bool × RateWindow
  | [] => ([], w)
  | t :: ts =>
      let step := rateAdmit limit windowMs w t
      let rest := rateAdmitSeq limit windowMs step.2 ts
      (step.1 :: rest.1, rest.2)

/-! ### Helper lemmas about the cache store -/

theorem mapGet_mapSet_self {α : Type} (m : CacheMap α) (k : String)
    (e : CacheEntry α) : mapGet (mapSet m k e) k = some e := by
  induction m with
  | nil => simp [mapSet, mapGet]
  | cons p rest ih =>
      by_cases h : p.1 = k
      · simp [mapSet, mapGet, h]
      · simp [mapSet, mapGet, h, ih]

theorem getFromCache_fresh_hit {ε α : Type} (cache : CacheMap α)
    (k : String) (v : α) (t tPut tGet : Nat) (hfresh : tGet - tPut < t)
    (fn : Except ε α) :
    getFromCache (mapSet cache k ⟨v, tPut⟩) k tGet fn t =
      ⟨Except.ok v, mapSet cache k ⟨v, tPut⟩, false⟩ := by
  unfold getFromCache
  rw [mapGet_mapSet_self]
  simp [hfresh]

theorem getFromCache_reject_eq {ε α : Type} (cache : CacheMap α) (k : String)
    (now t : Nat) (err : ε) (h : noFresh cache k now t) :
    getFromCache cache k now (Except.error err) t =
      ⟨Except.error err, cache, true⟩ := by
  unfold getFromCache
  cases hm : mapGet cache k with
  | none => simp
  | some e =>
      have hstale : t ≤ now - e.timestamp := h e hm
      simp [Nat.not_lt.mpr hstale]

theorem getFromCache_store_eq {ε α : Type} (cache : CacheMap α) (k : String)
    (now t : Nat) (v : α) (h : noFresh cache k now t) :
    getFromCache (ε := ε) cache k now (Except.ok v) t =
      ⟨Except.ok v, mapSet cache k ⟨v, now⟩, true⟩ := by
  unfold getFromCache
  cases hm : mapGet cache k with
  | none => simp
  | some e =>
      have hstale : t ≤ now - e.timestamp := h e hm
      simp [Nat.not_lt.mpr hstale]

/-! ### Claims about the TTL cache store -/

/-- C2: after a put of `(k, v)` at time `tPut`, a `getFromCache` for `k` at
any time `tGet` within the TTL (`tPut ≤ tGet`, `tGet - tPut < t`) returns
`v`, leaves the cache unchanged and does not invoke the producer — for every
producer `fn`. -/
theorem cache_put_then_get_returns_value {ε α : Type} (cache : CacheMap α)
    (k : String) (v : α) (t tPut tGet : Nat) (hle : tPut ≤ tGet)
    (hfresh : tGet - tPut < t) (fn : Except ε α) :
    getFromCache (mapSet cache k ⟨v, tPut⟩) k tGet fn t =
      ⟨Except.ok v, mapSet cache k ⟨v, tPut⟩, false⟩ :=
  getFromCache_fresh_hit cache k v t tPut tGet hfresh fn

/-- Witness for C2 at concrete inputs: the producer is a rejection, yet the
freshly stored value is served and the producer is not run. -/
theorem cache_put_then_get_returns_value_witness :
    getFromCache (mapSet ([] : CacheMap Nat) "k" ⟨7, 100⟩) "k" 103
        (Except.error "boom") 5 =
      ⟨Except.ok 7, mapSet ([] : CacheMap Nat) "k" ⟨7, 100⟩, false⟩ :=
  cache_put_then_get_returns_value [] "k" 7 5 100 103 (by decide) (by decide)
    (Except.error "boom")

/-- C3: when the stored entry for `k` is stale (`t ≤ now - storedAt`), a read
behaves as absent — the producer is invoked, and its fulfilled value
overwrites the entry — while on a rejected producer the stale entry is left
physically present, untouched, in the map. -/
theorem stale_entry_read_behaves_absent {ε α : Type} (cache : CacheMap α)
    (k : String) (e : CacheEntry α) (t now : Nat)
    (hget : mapGet cache k = some e) (hstale : t ≤ now - e.timestamp) :
    (∀ v : α, getFromCache (ε := ε) cache k now (Except.ok v) t =
        ⟨Except.ok v, mapSet cache k ⟨v, now⟩, true⟩) ∧
    (∀ err : ε, getFromCache cache k now (Except.error err) t =
        ⟨Except.error err, cache, true⟩ ∧
      mapGet (getFromCache cache k now (Except.error err) t).cache k = some e) := by
  have habs : noFresh cache k now t := by
    intro e' he'
    rw [hget] at he'
    cases he'
    exact hstale
  refine ⟨fun v => getFromCache_store_eq cache k now t v habs, fun err => ?_⟩
  rw [getFromCache_reject_eq cache k now t err habs]
  exact ⟨rfl, hget⟩

/-- Witness for C3 at concrete inputs: a stale entry (stored at 0, read at
10 under TTL 5) is bypassed and overwritten by the producer's value. -/
theorem stale_entry_read_behaves_absent_witness :
    getFromCache (ε := String) [("k", ⟨7, 0⟩)] "k" 10 (Except.ok 1) 5 =
      ⟨Except.ok 1, mapSet [("k", (⟨7, 0⟩ : CacheEntry Nat))] "k" ⟨1, 10⟩, true⟩ :=
  (stale_entry_read_behaves_absent [("k", ⟨7, 0⟩)] "k" ⟨7, 0⟩ 5 10 (by decide)
    (by decide)).1 1

/-- C9: if no fresh entry exists for `k` and the producer rejects, the
rejection propagates and the cache is left exactly as it was — a failed
producer result is never cached. -/
theorem producer_rejection_leaves_cache_unchanged {ε α : Type}
    (cache : CacheMap α) (k : String) (now t : Nat) (err : ε)
    (h : noFresh cache k now t) :
    getFromCache cache k now (Except.error err) t =
      ⟨Except.error err, cache, true⟩ :=
  getFromCache_reject_eq cache k now t err h

/-- Witness for C9 at concrete inputs: an empty cache, a rejecting producer —
the error propagates and the cache stays empty. -/
theorem producer_rejection_leaves_cache_unchanged_witness :
    getFromCache ([] : CacheMap Nat) "k" 3 (Except.error "boom") 5 =
      ⟨Except.error "boom", ([] : CacheMap Nat), true⟩ :=
  producer_rejection_leaves_cache_unchanged [] "k" 3 5 "boom"
    (fun _ h => Option.noConfusion h)

/-! ### Claims about the admin cache controls -/

/-- C4: with the correct secret, the clear-all operation reports a
removed-count equal to the number of entries present immediately before the
call and leaves the cache store empty. -/
theorem admin_clear_all_counts_and_empties {α : Type} (secret : String)
    (cache : CacheMap α) :
    adminClearAll secret secret cache =
      (⟨200, true, none,
        some ("Cache cleared. " ++ toString (mapSize cache) ++ " entries removed."),
        none⟩, ([] : CacheMap α)) := by
  simp [adminClearAll]

/-- C5: with a wrong secret, both admin operations answer 401 `Unauthorized`,
mutate nothing, and their response does not depend on the cache state (so it
reveals nothing about whether the target key existed); with the correct
secret clear-all empties the store. -/
theorem admin_wrong_secret_no_mutation {α : Type}
    (adminKey expectedKey k : String) (c c' : CacheMap α)
    (h : adminKey ≠ expectedKey) :
    (adminClearAll adminKey expectedKey c).2 = c ∧
    (adminClearAll adminKey expectedKey c).1 =
      ⟨401, false, some "Unauthorized", none, none⟩ ∧
    (adminClearKey adminKey expectedKey k c).2 = c ∧
    (adminClearKey adminKey expectedKey k c).1 =
      ⟨401, false, some "Unauthorized", none, none⟩ ∧
    (adminClearKey adminKey expectedKey k c).1 =
      (adminClearKey adminKey expectedKey k c').1 ∧
    (adminClearAll expectedKey expectedKey c).2 = [] := by
  simp [adminClearAll, adminClearKey, h]

/-- Witness for C5 at concrete inputs: a wrong secret against the default
`admin-secret-key`, one cache holding the target key and one not holding
it — identical refusals, no mutation. -/
theorem admin_wrong_secret_no_mutation_witness :
    (adminClearAll "wrong" "admin-secret-key" [("k", (⟨0, 0⟩ : CacheEntry Nat))]).2 =
      [("k", (⟨0, 0⟩ : CacheEntry Nat))] ∧
    (adminClearAll "wrong" "admin-secret-key" [("k", (⟨0, 0⟩ : CacheEntry Nat))]).1 =
      ⟨401, false, some "Unauthorized", none, none⟩ ∧
    (adminClearKey "wrong" "admin-secret-key" "k" [("k", (⟨0, 0⟩ : CacheEntry Nat))]).2 =
      [("k", (⟨0, 0⟩ : CacheEntry Nat))] ∧
    (adminClearKey "wrong" "admin-secret-key" "k" [("k", (⟨0, 0⟩ : CacheEntry Nat))]).1 =
      ⟨401, false, some "Unauthorized", none, none⟩ ∧
    (adminClearKey "wrong" "admin-secret-key" "k" [("k", (⟨0, 0⟩ : CacheEntry Nat))]).1 =
      (adminClearKey "wrong" "admin-secret-key" "k" ([] : CacheMap Nat)).1 ∧
    (adminClearAll "admin-secret-key" "admin-secret-key"
      [("k", (⟨0, 0⟩ : CacheEntry Nat))]).2 = [] :=
  admin_wrong_secret_no_mutation "wrong" "admin-secret-key" "k"
    [("k", ⟨0, 0⟩)] [] (by decide)

/-! ### Claims about the request handlers -/

theorem gqlProducer_error_of_isFailure {α : Type} (fallbackMsg : String)
    (up : UpstreamGql α) (h : up.isFailure = true) :
    ∃ m : String, gqlProducer fallbackMsg up = Except.error m := by
  cases up with
  | transportError m => exact ⟨m, rfl⟩
  | gqlErrors m => exact ⟨jsOrStr m fallbackMsg, rfl⟩
  | ok _ => simp [UpstreamGql.isFailure] at h

/-- C6: on every hard-path lookup — player search, player profile, item
lookup — an upstream failure (transport error or explicit error envelope)
with no fresh cache entry is propagated to the caller as a reported failure:
status 500, `success: false`, a non-`null` error message, and no substitute
`data`. -/
theorem hard_path_upstream_failure_propagates {α : Type}
    (u pid iid : String) (c1 c2 c3 : CacheMap (Option α))
    (n1 n2 n3 : Nat) (up1 up2 up3 : UpstreamGql (Option α))
    (hu : validateUsername u = true)
    (hf1 : up1.isFailure = true) (hf2 : up2.isFailure = true)
    (hf3 : up3.isFailure = true)
    (hm1 : noFresh c1 (playerSearchKey u) n1 CACHE_DURATION)
    (hm2 : noFresh c2 (playerProfileKey pid) n2 CACHE_DURATION)
    (hm3 : noFresh c3 (marketItemKey iid) n3 CACHE_DURATION) :
    ((playerSearch (some u) c1 n1 up1).1.status = 500 ∧
      (playerSearch (some u) c1 n1 up1).1.success = false ∧
      (playerSearch (some u) c1 n1 up1).1.error ≠ none ∧
      (playerSearch (some u) c1 n1 up1).1.data = none) ∧
    ((playerProfile pid c2 n2 up2).1.status = 500 ∧
      (playerProfile pid c2 n2 up2).1.success = false ∧
      (playerProfile pid c2 n2 up2).1.error ≠ none ∧
      (playerProfile pid c2 n2 up2).1.data = none) ∧
    ((marketItem iid c3 n3 up3).1.status = 500 ∧
      (marketItem iid c3 n3 up3).1.success = false ∧
      (marketItem iid c3 n3 up3).1.error ≠ none ∧
      (marketItem iid c3 n3 up3).1.data = none) := by
  obtain ⟨m1, he1⟩ :=
    gqlProducer_error_of_isFailure "Failed to fetch player data" up1 hf1
  obtain ⟨m2, he2⟩ :=
    gqlProducer_error_of_isFailure "Failed to fetch player profile" up2 hf2
  obtain ⟨m3, he3⟩ :=
    gqlProducer_error_of_isFailure "Failed to fetch item data" up3 hf3
  refine ⟨?_, ?_, ?_⟩
  · simp only [playerSearch, hu, Bool.true_eq_false, if_false, he1,
      getFromCache_reject_eq c1 (playerSearchKey u) n1 CACHE_DURATION m1 hm1]
    simp
  · simp only [playerProfile, he2,
      getFromCache_reject_eq c2 (playerProfileKey pid) n2 CACHE_DURATION m2 hm2]
    simp
  · simp only [marketItem, he3,
      getFromCache_reject_eq c3 (marketItemKey iid) n3 CACHE_DURATION m3 hm3]
    simp

/-- Witness for C6 at concrete inputs: empty caches, a timed-out transport on
each of the three hard paths. -/
theorem hard_path_upstream_failure_propagates_witness :
    (((playerSearch (α := Unit) (some "abc") [] 0 (UpstreamGql.transportError "timeout")).1.status = 500 ∧
      (playerSearch (α := Unit) (some "abc") [] 0 (UpstreamGql.transportError "timeout")).1.success = false ∧
      (playerSearch (α := Unit) (some "abc") [] 0 (UpstreamGql.transportError "timeout")).1.error ≠ none ∧
      (playerSearch (α := Unit) (some "abc") [] 0 (UpstreamGql.transportError "timeout")).1.data = none) ∧
    ((playerProfile (α := Unit) "p1" [] 0 (UpstreamGql.gqlErrors none)).1.status = 500 ∧
      (playerProfile (α := Unit) "p1" [] 0 (UpstreamGql.gqlErrors none)).1.success = false ∧
      (playerProfile (α := Unit) "p1" [] 0 (UpstreamGql.gqlErrors none)).1.error ≠ none ∧
      (playerProfile (α := Unit) "p1" [] 0 (UpstreamGql.gqlErrors none)).1.data = none) ∧
    ((marketItem (α := Unit) "i1" [] 0 (UpstreamGql.transportError "")).1.status = 500 ∧
      (marketItem (α := Unit) "i1" [] 0 (UpstreamGql.transportError "")).1.success = false ∧
      (marketItem (α := Unit) "i1" [] 0 (UpstreamGql.transportError "")).1.error ≠ none ∧
      (marketItem (α := Unit) "i1" [] 0 (UpstreamGql.transportError "")).1.data = none)) :=
  hard_path_upstream_failure_propagates "abc" "p1" "i1" [] [] [] 0 0 0
    (UpstreamGql.transportError "timeout") (UpstreamGql.gqlErrors none)
    (UpstreamGql.transportError "") (by decide) rfl rfl rfl
    (fun _ h => Option.noConfusion h) (fun _ h => Option.noConfusion h)
    (fun _ h => Option.noConfusion h)

/-- C7: a ban-check for a valid username with no fresh cache entry whose
upstream call fails is answered as a success — status 200, `success: true`,
`isBanned: false`, `source: "offline"` and the unavailability note — never a
caller-visible failure; the degraded object is stored under the ban-check
key. -/
theorem ban_check_failure_degrades (u : String) (cache : CacheMap BanStatus)
    (now : Nat) (hu : validateUsername u = true)
    (hm : noFresh cache (banCheckKey u) now BAN_CHECK_DURATION) :
    banCheck (some u) cache now BanUpstream.failure =
      (⟨200, true, none,
        some ⟨u, false, none, none, "unknown", "offline",
          some "Ban check service unavailable, player status unknown"⟩⟩,
        mapSet cache (banCheckKey u)
          ⟨banCheckProducer u BanUpstream.failure, now⟩, true) := by
  simp only [banCheck, hu, Bool.true_eq_false, if_false,
    getFromCache_store_eq cache (banCheckKey u) now BAN_CHECK_DURATION
      (banCheckProducer u BanUpstream.failure) hm]
  rfl

/-- Witness for C7 at concrete inputs: username `abc`, empty cache, upstream
failure. -/
theorem ban_check_failure_degrades_witness :
    banCheck (some "abc") [] 0 BanUpstream.failure =
      (⟨200, true, none,
        some ⟨"abc", false, none, none, "unknown", "offline",
          some "Ban check service unavailable, player status unknown"⟩⟩,
        mapSet [] (banCheckKey "abc")
          ⟨banCheckProducer "abc" BanUpstream.failure, 0⟩, true) :=
  ban_check_failure_degrades "abc" [] 0 (by decide)
    (fun _ h => Option.noConfusion h)

/-- C10: the degraded ban-check result is cached exactly like an
authoritative success: after an upstream failure at `t0` the degraded object
sits under the ban-check key, and every later ban-check for the same
username within the 15-minute TTL (`t0 ≤ t1`, `t1 - t0 < 15 min`) returns it
from cache — same successful degraded response regardless of the new
upstream outcome — without invoking the producer, i.e. without contacting
the upstream service again. -/
theorem ban_check_degraded_result_cached (u : String)
    (cache : CacheMap BanStatus) (t0 t1 : Nat) (up2 : BanUpstream)
    (hu : validateUsername u = true)
    (hm : noFresh cache (banCheckKey u) t0 BAN_CHECK_DURATION)
    (hle : t0 ≤ t1) (httl : t1 - t0 < BAN_CHECK_DURATION) :
    mapGet (banCheck (some u) cache t0 BanUpstream.failure).2.1 (banCheckKey u) =
      some ⟨banCheckProducer u BanUpstream.failure, t0⟩ ∧
    banCheck (some u) (banCheck (some u) cache t0 BanUpstream.failure).2.1 t1 up2 =
      (⟨200, true, none, some (banCheckProducer u BanUpstream.failure)⟩,
        (banCheck (some u) cache t0 BanUpstream.failure).2.1, false) := by
  have hstore : (banCheck (some u) cache t0 BanUpstream.failure).2.1 =
      mapSet cache (banCheckKey u) ⟨banCheckProducer u BanUpstream.failure, t0⟩ := by
    simp only [banCheck, hu, Bool.true_eq_false, if_false,
      getFromCache_store_eq cache (banCheckKey u) t0 BAN_CHECK_DURATION
        (banCheckProducer u BanUpstream.failure) hm]
  constructor
  · rw [hstore]
    exact mapGet_mapSet_self cache (banCheckKey u) _
  · rw [hstore]
    have hfresh := getFromCache_fresh_hit (ε := Empty) cache
      (banCheckKey u) (banCheckProducer u BanUpstream.failure)
      BAN_CHECK_DURATION t0 t1 httl
      (Except.ok (banCheckProducer u up2))
    simp only [banCheck, hu, Bool.true_eq_false, if_false, hfresh]

/-- Witness for C10 at concrete inputs: after a failed ban check at time 0,
a second check at time 10 — even with a live upstream now reporting a ban —
is served the cached degraded result without a producer call. -/
theorem ban_check_degraded_result_cached_witness :
    mapGet (banCheck (some "abc") [] 0 BanUpstream.failure).2.1
        (banCheckKey "abc") =
      some ⟨banCheckProducer "abc" BanUpstream.failure, 0⟩ ∧
    banCheck (some "abc") (banCheck (some "abc") [] 0 BanUpstream.failure).2.1
        10 (BanUpstream.ok ⟨some true, some "cheat", none, none, some "live"⟩) =
      (⟨200, true, none, some (banCheckProducer "abc" BanUpstream.failure)⟩,
        (banCheck (some "abc") [] 0 BanUpstream.failure).2.1, false) :=
  ban_check_degraded_result_cached "abc" [] 0 10
    (BanUpstream.ok ⟨some true, some "cheat", none, none, some "live"⟩)
    (by decide) (fun _ h => Option.noConfusion h) (by decide) (by decide)

/-! ### Claims about the rate limiter -/

theorem rateAdmitSeq_in_window (limit windowMs s c : Nat) (ts : List Nat)
    (h : ∀ t ∈ ts, t - s ≤ windowMs) :
    (rateAdmitSeq limit windowMs ⟨c, s⟩ ts).1.count true =
      min ts.length (limit - c) ∧
    (rateAdmitSeq limit windowMs ⟨c, s⟩ ts).2 = ⟨c + ts.length, s⟩ := by
  induction ts generalizing c with
  | nil => simp [rateAdmitSeq]
  | cons t ts ih =>
      have ht : t - s ≤ windowMs := h t (by simp)
      have hts : ∀ x ∈ ts, x - s ≤ windowMs := fun x hx => h x (by simp [hx])
      obtain ⟨ih1, ih2⟩ := ih (c + 1) hts
      have hstep : rateAdmit limit windowMs ⟨c, s⟩ t =
          (decide (c + 1 ≤ limit), ⟨c + 1, s⟩) := by
        simp [rateAdmit, Nat.not_lt.mpr ht]
      constructor
      · simp only [rateAdmitSeq, hstep, List.count_cons, ih1, List.length_cons]
        by_cases hcl : c + 1 ≤ limit <;> simp [hcl] <;> omega
      · simp only [rateAdmitSeq, hstep, ih2, List.length_cons]
        congr 1
        omega

/-- C8: the rate limiter (modelled from spec section 4.4, the
`express-rate-limit` configuration being the only part in `src/`):
(1) within the window each request increments the count and is admitted iff
`count ≤ limit`; (2) once `now - windowStart` exceeds the window length the
window resets to `count = 0, windowStart = now` before counting the request;
(3) starting from a fresh window, a sequence of in-window requests admits
exactly `min n limit` of them and leaves `count = n`; (4) the
`(limit+1)`-th in-window request is rejected; (5) after the window elapses
admissions resume (whenever `1 ≤ limit`). -/
theorem rate_limiter_window (limit windowMs : Nat) :
    (∀ (w : RateWindow) (now : Nat), now - w.windowStart ≤ windowMs →
      rateAdmit limit windowMs w now =
        (decide (w.count + 1 ≤ limit), ⟨w.count + 1, w.windowStart⟩)) ∧
    (∀ (w : RateWindow) (now : Nat), windowMs < now - w.windowStart →
      rateAdmit limit windowMs w now = (decide (1 ≤ limit), ⟨1, now⟩)) ∧
    (∀ (s : Nat) (ts : List Nat), (∀ t ∈ ts, t - s ≤ windowMs) →
      (rateAdmitSeq limit windowMs ⟨0, s⟩ ts).1.count true = min ts.length limit ∧
      (rateAdmitSeq limit windowMs ⟨0, s⟩ ts).2 = ⟨ts.length, s⟩) ∧
    (∀ (s : Nat) (ts : List Nat) (next : Nat),
      (∀ t ∈ ts, t - s ≤ windowMs) → next - s ≤ windowMs →
      ts.length = limit →
      (rateAdmit limit windowMs (rateAdmitSeq limit windowMs ⟨0, s⟩ ts).2 next).1 = false) ∧
    (∀ (w : RateWindow) (now : Nat), windowMs < now - w.windowStart →
      1 ≤ limit → (rateAdmit limit windowMs w now).1 = true) := by
  refine ⟨?_, ?_, ?_, ?_, ?_⟩
  · intro w now hin
    simp [rateAdmit, Nat.not_lt.mpr hin]
  · intro w now hout
    simp [rateAdmit, hout]
  · intro s ts hts
    have := rateAdmitSeq_in_window limit windowMs s 0 ts hts
    simpa using this
  · intro s ts next hts hnext hlen
    have h2 := (rateAdmitSeq_in_window limit windowMs s 0 ts hts).2
    rw [h2]
    simp [rateAdmit, Nat.not_lt.mpr hnext, hlen]
  · intro w now hout hlim
    simp [rateAdmit, hout, hlim]

/-- Witness for C8 at concrete inputs: `limit = 2`, `windowMs = 100`.  Three
requests inside a window starting at 0 yield exactly two admissions and a
final count of 3; the window resets on a late request. -/
theorem rate_limiter_window_witness :
    ((rateAdmitSeq 2 100 ⟨0, 0⟩ [10, 20, 30]).1.count true = min 3 2 ∧
      (rateAdmitSeq 2 100 ⟨0, 0⟩ [10, 20, 30]).2 = ⟨3, 0⟩) ∧
    rateAdmit 2 100 ⟨3, 0⟩ 200 = (decide (1 ≤ 2), ⟨1, 200⟩) :=
  ⟨by
    have h := (rate_limiter_window 2 100).2.2.1 0 [10, 20, 30] (by decide)
    simpa using h,
   (rate_limiter_window 2 100).2.1 ⟨3, 0⟩ 200 (by decide)⟩

/-! ### Claims about cache-key derivation -/

theorem string_data_inj (s t : String) (h : s.data = t.data) : s = t := by
  cases s
  cases t
  exact congrArg String.mk h

theorem append_sep_inj (a : List Char) (c : List Char) :
    ∀ (b d : List Char), '_' ∉ a → '_' ∉ b →
    a ++ '_' :: c = b ++ '_' :: d → a = b ∧ c = d := by
  induction a with
  | nil =>
      intro b d _ hb h
      cases b with
      | nil => simpa using h
      | cons y b' =>
          simp only [List.nil_append, List.cons_append, List.cons.injEq] at h
          exact absurd (List.mem_cons.mpr (Or.inl h.1)) hb
  | cons x a' ih =>
      intro b d ha hb h
      cases b with
      | nil =>
          simp only [List.cons_append, List.nil_append, List.cons.injEq] at h
          exact absurd (List.mem_cons.mpr (Or.inl h.1.symm)) ha
      | cons y b' =>
          simp only [List.cons_append, List.cons.injEq] at h
          obtain ⟨hxy, h'⟩ := h
          have ha' : '_' ∉ a' := fun hmem => ha (List.mem_cons_of_mem x hmem)
          have hb' : '_' ∉ b' := fun hmem => hb (List.mem_cons_of_mem y hmem)
          obtain ⟨h1, h2⟩ := ih b' d ha' hb' h'
          exact ⟨by rw [hxy, h1], h2⟩

/-- C1 counterexample: the price-history cache key is NOT injective across
distinct `(itemId, days)` pairs — `itemId = "a_1", days = "2"` and
`itemId = "a", days = "1_2"` are distinct logical requests that derive the
same key `market_history_a_1_2`. -/
theorem cache_key_collision :
    marketHistoryKey "a_1" "2" = marketHistoryKey "a" "1_2" ∧
    ("a_1", "2") ≠ (("a", "1_2") : String × String) := by
  constructor
  · rfl
  · decide

/-- C1 amended: cache keys are deterministic; case-equivalent usernames
derive equal player-search and ban-check keys; distinct (case-normalized)
usernames derive distinct keys within each of those endpoints; a
player-search key never equals a ban-check key; and the price-history key is
injective in `(itemId, days)` only under the proviso that the item ids
contain no underscore — without it, distinct pairs can collide. -/
theorem cache_key_amended :
    (∀ u v : String, jsToLower u = jsToLower v →
      playerSearchKey u = playerSearchKey v ∧ banCheckKey u = banCheckKey v) ∧
    (∀ u v : String, playerSearchKey u = playerSearchKey v →
      jsToLower u = jsToLower v) ∧
    (∀ u v : String, banCheckKey u = banCheckKey v →
      jsToLower u = jsToLower v) ∧
    (∀ u v : String, playerSearchKey u ≠ banCheckKey v) ∧
    (∀ i d i2 d2 : String, '_' ∉ i.data → '_' ∉ i2.data →
      marketHistoryKey i d = marketHistoryKey i2 d2 → i = i2 ∧ d = d2) := by
  refine ⟨?_, ?_, ?_, ?_, ?_⟩
  · intro u v h
    constructor <;> simp [playerSearchKey, banCheckKey, h]
  · intro u v h
    have hd := congrArg String.data h
    have hd' : "player_".data ++ (jsToLower u).data =
        "player_".data ++ (jsToLower v).data := by
      simpa [playerSearchKey] using hd
    exact string_data_inj _ _ (List.append_cancel_left hd')
  · intro u v h
    have hd := congrArg String.data h
    have hd' : "ban_check_".data ++ (jsToLower u).data =
        "ban_check_".data ++ (jsToLower v).data := by
      simpa [banCheckKey] using hd
    exact string_data_inj _ _ (List.append_cancel_left hd')
  · intro u v h
    have hd := congrArg String.data h
    simp [playerSearchKey, banCheckKey] at hd
  · intro i d i2 d2 hi hi2 h
    have hd : "market_history_".data ++ (i.data ++ '_' :: d.data) =
        "market_history_".data ++ (i2.data ++ '_' :: d2.data) := by
      have := congrArg String.data h
      simpa [marketHistoryKey, List.append_assoc] using this
    have hcancel := List.append_cancel_left hd
    obtain ⟨h1, h2⟩ := append_sep_inj i.data d.data i2.data d2.data hi hi2 hcancel
    exact ⟨string_data_inj _ _ h1, string_data_inj _ _ h2⟩

/-- Witness for the amended C1 at concrete inputs: usernames differing only
in case share a key, a player-search key differs from a ban-check key for
the same username, and underscore-free history requests resolve uniquely. -/
theorem cache_key_amended_witness :
    (playerSearchKey "Abc" = playerSearchKey "aBC" ∧
      banCheckKey "Abc" = banCheckKey "aBC") ∧
    playerSearchKey "abc" ≠ banCheckKey "abc" ∧
    ("itemA" = "itemA" ∧ "30" = "30") :=
  ⟨cache_key_amended.1 "Abc" "aBC" (by decide),
   cache_key_amended.2.2.2.1 "abc" "abc",
   cache_key_amended.2.2.2.2 "itemA" "30" "itemA" "30" (by decide) (by decide)
     rfl⟩
